import Mathlib

set_option maxHeartbeats 1000000

/-!
Verification of the gesture-driven christmas-tree installation.

The development shallowly embeds the algorithmic core of the repository:
the gesture classifier and debouncing state machine of
src/components/GestureController.tsx, the mode and override handling of
src/App.tsx, the motion blending updates of src/components/Ornaments.tsx and
src/components/Polaroids.tsx, the camera azimuth mapper of
src/components/Experience.tsx, and the polaroid cycling effect of
src/components/Polaroids.tsx.
-/

/-- Tree display mode. The TreeMode enum is imported from ../types by every
component; the file itself is not in the snapshot, but every use site shows the
two variants FORMED and CHAOS. -/
inductive TreeMode where
  | FORMED
  | CHAOS
deriving DecidableEq, Repr

/-- Number of consecutive frames needed to confirm a gesture
(GestureController.tsx line 27). -/
def CONFIDENCE_THRESHOLD : Nat := 5

/-- The lastGestureState ref of GestureController.tsx line 30 ranges over the
strings open, pointing and other; the first is a Lean keyword, hence opened. -/
inductive GState where
  | opened
  | pointing
  | other
deriving DecidableEq, Repr

/-- GestureController.tsx line 174: extendedFingers < 5 && extendedFingers > 0. -/
def isPointing (extendedFingers : Nat) : Bool :=
  decide (extendedFingers < 5) && decide (extendedFingers > 0)

/-- GestureController.tsx line 175: extendedFingers >= 4. -/
def isOpenHand (extendedFingers : Nat) : Bool :=
  decide (extendedFingers ≥ 4)

/-- The mutable refs of GestureController.tsx (lines 21 to 31) that survive
between frames. -/
structure GCState where
  openFrames : Nat
  closedFrames : Nat
  pointingFrames : Nat
  lastGestureState : GState
  hasTriggeredZoom : Bool
  lastMode : TreeMode
deriving DecidableEq, Repr

/-- One detected hand frame, reduced to the data detectGesture branches on:
the extended finger count and the palm center coordinates. -/
structure HandIn where
  extendedFingers : Nat
  palmX : Rat
  palmY : Rat
deriving DecidableEq, Repr

/-- The callback invocations emitted while processing one video frame:
the onHandPosition payload, the list of onIndexFingerDetected arguments and
the list of onModeChange arguments, in call order. -/
structure GCOut where
  handSignal : Rat × Rat × Bool
  indexCalls : List Bool
  modeCalls : List TreeMode
deriving DecidableEq, Repr

/-- The stateful part of detectGesture (GestureController.tsx lines 128 to 260)
on a frame whose extended finger count is already computed. -/
def detectGesture (s : GCState) (h : HandIn) : GCState × GCOut :=
  let n := h.extendedFingers
  let ptg := isPointing n
  let opn := isOpenHand n
  let currentGestureState : GState :=
    if opn then GState.opened else if ptg then GState.pointing else GState.other
  let pointingPart : Nat × Nat × Nat × Bool × List Bool :=
    if ptg then
      let pf := s.pointingFrames + 1
      let fastFire : Bool :=
        decide (s.lastGestureState = GState.opened) && !s.hasTriggeredZoom &&
          decide (pf ≥ 2)
      let htz1 : Bool := if fastFire then true else s.hasTriggeredZoom
      let calls1 : List Bool := if fastFire then [true] else []
      let slowFire : Bool := decide (pf > CONFIDENCE_THRESHOLD) && !htz1
      let calls2 : List Bool := if slowFire then [true] else []
      (0, 0, pf, htz1, calls1 ++ calls2)
    else
      let htz1 : Bool :=
        if currentGestureState = GState.opened then false else s.hasTriggeredZoom
      (s.openFrames, s.closedFrames, 0, htz1, [false])
  let (of0, cf0, pf1, htz1, idxCalls) := pointingPart
  let decision : Nat × Nat × TreeMode × List TreeMode :=
    if decide (n ≥ 4) && !ptg then
      let ofr := of0 + 1
      if decide (ofr > CONFIDENCE_THRESHOLD) && decide (s.lastMode ≠ TreeMode.CHAOS) then
        (ofr, 0, TreeMode.CHAOS, [TreeMode.CHAOS])
      else (ofr, 0, s.lastMode, [])
    else if decide (n ≤ 1) && !ptg then
      let cfr := cf0 + 1
      if decide (cfr > CONFIDENCE_THRESHOLD) && decide (s.lastMode ≠ TreeMode.FORMED) then
        (0, cfr, TreeMode.FORMED, [TreeMode.FORMED])
      else (0, cfr, s.lastMode, [])
    else if !ptg then (0, 0, s.lastMode, [])
    else (of0, cf0, s.lastMode, [])
  let (ofr, cfr, mode1, modeCalls) := decision
  (⟨ofr, cfr, pf1, currentGestureState, htz1, mode1⟩,
   ⟨(h.palmX, h.palmY, true), idxCalls, modeCalls⟩)

/-- One iteration of predictWebcam (GestureController.tsx lines 98 to 126):
a detected hand runs detectGesture, a lost hand runs the decay branch of
lines 108 to 122. Nat subtraction matches Math.max(0, x - 1). -/
def processFrame (s : GCState) (f : Option HandIn) : GCState × GCOut :=
  match f with
  | some h => detectGesture s h
  | none =>
      (⟨s.openFrames - 1, s.closedFrames - 1, s.pointingFrames - 1,
        GState.other, false, s.lastMode⟩,
       ⟨(1/2, 1/2, false), [], []⟩)

/-- Run processFrame over a list of frames, collecting the per frame outputs. -/
def runFrames : GCState → List (Option HandIn) → GCState × List GCOut
  | s, [] => (s, [])
  | s, f :: fs =>
      ((runFrames (processFrame s f).1 fs).1,
       (processFrame s f).2 :: (runFrames (processFrame s f).1 fs).2)

/-- All onModeChange arguments over a run, in order. -/
def modeEvents (outs : List GCOut) : List TreeMode :=
  (outs.map GCOut.modeCalls).flatten

/-- All onIndexFingerDetected arguments over a run, in order. -/
def indexEvents (outs : List GCOut) : List Bool :=
  (outs.map GCOut.indexCalls).flatten

/-- Initial controller state: counters zero, no gesture seen, mode FORMED
(App.tsx line 49 initialises mode to FORMED). -/
def s0 : GCState := ⟨0, 0, 0, GState.other, false, TreeMode.FORMED⟩

/-- A frame classified OPEN: five extended fingers. -/
def openIn : Option HandIn := some ⟨5, 0, 0⟩

/-- A frame classified as pointing: one extended finger. -/
def pointIn : Option HandIn := some ⟨1, 0, 0⟩

/-- A detected but ambiguous frame: three extended fingers. -/
def ambIn : Option HandIn := some ⟨3, 0, 0⟩

/-- The per frame gesture category determined by the branch structure of
detectGesture: the DECISION cascade of lines 231 to 259 together with the
isPointing test. -/
inductive GestureCategory where
  | OPEN
  | FIST
  | POINTING
  | AMBIGUOUS
deriving DecidableEq, Repr

/-- Category of a detected frame as a function of the extended finger count,
read off the guard structure of detectGesture. -/
def gestureCategory (extendedFingers : Nat) : GestureCategory :=
  if decide (extendedFingers ≥ 4) && !(isPointing extendedFingers) then
    GestureCategory.OPEN
  else if decide (extendedFingers ≤ 1) && !(isPointing extendedFingers) then
    GestureCategory.FIST
  else if isPointing extendedFingers then GestureCategory.POINTING
  else GestureCategory.AMBIGUOUS

/-- The App level state the claims are about: the persistent mode and the
per entity override, the zoomed polaroid index (App.tsx lines 49 and 54). -/
structure AppState where
  mode : TreeMode
  zoomedPolaroid : Option Nat
deriving DecidableEq, Repr

/-- The functional toggle passed to setMode (App.tsx lines 105 to 107 and 119). -/
def toggleModeVal (m : TreeMode) : TreeMode :=
  match m with
  | TreeMode.FORMED => TreeMode.CHAOS
  | TreeMode.CHAOS => TreeMode.FORMED

/-- handleTreeClick (App.tsx lines 118 to 122): toggle the mode and clear the
zoomed polaroid. -/
def handleTreeClick (s : AppState) : AppState :=
  ⟨toggleModeVal s.mode, none⟩

/-- The gesture path of a mode change: GestureController is wired with
onModeChange set to setMode (App.tsx line 172), so a gesture confirmed mode
change only replaces the mode. -/
def gestureModeChange (s : AppState) (m : TreeMode) : AppState :=
  ⟨m, s.zoomedPolaroid⟩

/-- handlePolaroidClick (App.tsx lines 125 to 135). -/
def handlePolaroidClick (s : AppState) (photoIndex : Option Nat) : AppState :=
  if s.mode = TreeMode.CHAOS then
    match photoIndex with
    | none => ⟨s.mode, none⟩
    | some i =>
        ⟨s.mode, if s.zoomedPolaroid = some i then none else some i⟩
  else s

/-- Three dimensional position with rational coordinates. -/
structure Vec3 where
  x : Rat
  y : Rat
  z : Rat
deriving DecidableEq, Repr

/-- THREE.Vector3.lerp: move the fraction alpha of the way from p toward t,
componentwise. -/
def lerp3 (p t : Vec3) (alpha : Rat) : Vec3 :=
  ⟨p.x + (t.x - p.x) * alpha, p.y + (t.y - p.y) * alpha, p.z + (t.z - p.z) * alpha⟩

/-- Squared euclidean distance between two positions. -/
def distSq (a b : Vec3) : Rat :=
  (a.x - b.x) ^ 2 + (a.y - b.y) ^ 2 + (a.z - b.z) ^ 2

/-- Ornaments.tsx lines 143 and 144: step = Math.min(1, delta * speed) followed
by currentPos.lerp(dest, step). -/
def ornamentUpdate (pos dest : Vec3) (delta speed : Rat) : Vec3 :=
  lerp3 pos dest (min 1 (delta * speed))

/-- Polaroids.tsx lines 192 and 195: step = delta * data.speed with no clamp,
followed by position.lerp(targetPos, step). -/
def polaroidUpdate (pos targetPos : Vec3) (delta speed : Rat) : Vec3 :=
  lerp3 pos targetPos (delta * speed)

/-- Experience.tsx line 57: the hand x coordinate mapped to the target azimuth,
targetAzimuth = (handPosition.x - 0.5) * PI * 3. -/
noncomputable def targetAzimuth (hx : ℝ) : ℝ :=
  (hx - 0.5) * Real.pi * 3

/-- Experience.tsx lines 74 to 76: wrap around adjustment of the azimuth
difference before interpolating. -/
noncomputable def adjustAzimuthDiff (d : ℝ) : ℝ :=
  if d > Real.pi then d - Real.pi * 2
  else if d < -Real.pi then d + Real.pi * 2
  else d

/-- The state of the polaroid cycling effect of Polaroids.tsx lines 356 to 359:
the index of the photo shown next, the previous frame gesture flag and the
timestamp of the last accepted gesture. -/
structure PolState where
  currentZoomIndex : Nat
  previousIndexFinger : Bool
  lastGestureTime : Int
deriving DecidableEq, Repr

/-- The props and clock read by one run of the gesture cycling effect
(Polaroids.tsx lines 542 to 565). -/
structure PolIn where
  indexFingerDetected : Bool
  mode : TreeMode
  photoCount : Nat
  zoomedPolaroid : Option Nat
  currentTime : Int
deriving DecidableEq, Repr

/-- Debounce interval in milliseconds (Polaroids.tsx line 359). -/
def gestureDebounceTime : Int := 300

/-- One run of the gesture cycling effect of Polaroids.tsx lines 542 to 565,
returning the updated state and the onPolaroidClick invocations. -/
def polaroidGestureEffect (s : PolState) (i : PolIn) : PolState × List (Option Nat) :=
  let r : PolState × List (Option Nat) :=
    if i.indexFingerDetected && decide (i.photoCount > 0) &&
        decide (i.mode = TreeMode.CHAOS) then
      if !s.previousIndexFinger &&
          decide (i.currentTime - s.lastGestureTime > gestureDebounceTime) then
        let nextIndex := (s.currentZoomIndex + 1) % i.photoCount
        (⟨nextIndex, s.previousIndexFinger, i.currentTime⟩, [some nextIndex])
      else (s, [])
    else if !i.indexFingerDetected && decide (i.zoomedPolaroid ≠ none) then
      (s, [(none : Option Nat)])
    else (s, [])
  (⟨r.1.currentZoomIndex, i.indexFingerDetected, r.1.lastGestureTime⟩, r.2)

/-- A single hand landmark in normalized image coordinates. -/
structure Landmark where
  x : ℝ
  y : ℝ

/-- Math.hypot of the coordinate differences, the euclidean distance used by
detectGesture (GestureController.tsx lines 157, 158, 169 and 170). -/
noncomputable def landmarkDist (a b : Landmark) : ℝ :=
  Real.sqrt ((a.x - b.x) ^ 2 + (a.y - b.y) ^ 2)

/-- GestureController.tsx line 161: a long finger with the given tip and base
landmark indices counts as extended when distTip > distBase * 1.5. -/
def longFingerExtended (lm : Nat → Landmark) (tip base : Nat) : Prop :=
  landmarkDist (lm tip) (lm 0) > landmarkDist (lm base) (lm 0) * 1.5

/-- GestureController.tsx line 171: the thumb counts as extended when
distThumbTip > distThumbBase * 1.2, with tip landmark 4 and base landmark 2. -/
def thumbExtended (lm : Nat → Landmark) : Prop :=
  landmarkDist (lm 4) (lm 0) > landmarkDist (lm 2) (lm 0) * 1.2

open Classical in
/-- The extended finger count of GestureController.tsx lines 150 to 171: the
four long fingers with tips 8, 12, 16, 20 over bases 5, 9, 13, 17, plus the
thumb. -/
noncomputable def extendedFingersCount (lm : Nat → Landmark) : Nat :=
  (if longFingerExtended lm 8 5 then 1 else 0) +
  (if longFingerExtended lm 12 9 then 1 else 0) +
  (if longFingerExtended lm 16 13 then 1 else 0) +
  (if longFingerExtended lm 20 17 then 1 else 0) +
  (if thumbExtended lm then 1 else 0)

/-- Synthetic straight line hand: the wrist at the origin, every base landmark
at distance one along the x axis, the long finger tips at distances a, b, c, d
and the thumb tip at distance e, so each distance ratio tip over base is the
given parameter. -/
def ratioHand (a b c d e : ℝ) : Nat → Landmark := fun i =>
  if i = 8 then ⟨a, 0⟩
  else if i = 12 then ⟨b, 0⟩
  else if i = 16 then ⟨c, 0⟩
  else if i = 20 then ⟨d, 0⟩
  else if i = 4 then ⟨e, 0⟩
  else if i = 0 then ⟨0, 0⟩
  else ⟨1, 0⟩

/-- A controller state about to see the first pointing frame right after an
open hand frame, with the latch unarmed. -/
def c3s : GCState := ⟨0, 0, 1, GState.opened, false, TreeMode.FORMED⟩

/-- The open scenario hand: all four long finger ratios two, thumb ratio 1.3. -/
noncomputable def rhOpen : Nat → Landmark := ratioHand 2 2 2 2 (13/10)

/-- The fist scenario hand: every ratio one. -/
noncomputable def rhFist : Nat → Landmark := ratioHand 1 1 1 1 1

/-- The pointing scenario hand: only the index finger ratio two. -/
noncomputable def rhPoint : Nat → Landmark := ratioHand 2 1 1 1 1

/-- Splitting a run of frames at an append splits the collected outputs. -/
lemma runFrames_append (s : GCState) (l1 l2 : List (Option HandIn)) :
    runFrames s (l1 ++ l2) =
      ((runFrames (runFrames s l1).1 l2).1,
        (runFrames s l1).2 ++ (runFrames (runFrames s l1).1 l2).2) := by
  induction l1 generalizing s with
  | nil => simp [runFrames]
  | cons f fs ih => simp [runFrames, ih]

/-- An OPEN frame processed while the confirmed mode is already CHAOS emits no
mode change and keeps the mode at CHAOS. -/
lemma step_open_chaos (s : GCState) (h : s.lastMode = TreeMode.CHAOS) :
    (processFrame s openIn).1.lastMode = TreeMode.CHAOS ∧
    (processFrame s openIn).2.modeCalls = [] := by
  simp [processFrame, openIn, detectGesture, isPointing, isOpenHand, h,
    CONFIDENCE_THRESHOLD]

/-- Once the mode is CHAOS, any further streak of OPEN frames emits no mode
change at all. -/
lemma chaos_absorbing (m : Nat) : ∀ s : GCState, s.lastMode = TreeMode.CHAOS →
    (runFrames s (List.replicate m openIn)).1.lastMode = TreeMode.CHAOS ∧
    (runFrames s (List.replicate m openIn)).2.map GCOut.modeCalls =
      List.replicate m [] := by
  induction m with
  | zero => intro s h; simpa [runFrames] using h
  | succ k ih =>
      intro s h
      obtain ⟨h1, h2⟩ := step_open_chaos s h
      obtain ⟨ih1, ih2⟩ := ih (processFrame s openIn).1 h1
      constructor
      · simpa [List.replicate_succ, runFrames] using ih1
      · simp [List.replicate_succ, runFrames, h2, ih2]

/-- The state reached after six OPEN frames from the initial state. -/
lemma runFrames_six :
    (runFrames s0 (List.replicate 6 openIn)).1 =
      ⟨6, 0, 0, GState.opened, false, TreeMode.CHAOS⟩ := by
  decide

/-- The mode calls of the first six OPEN frames from the initial state. -/
lemma runFrames_six_calls :
    (runFrames s0 (List.replicate 6 openIn)).2.map GCOut.modeCalls =
      List.replicate 5 [] ++ [[TreeMode.CHAOS]] := by
  decide

/-- C1, counterexample: starting from FORMED with all counters at zero, a
sequence of exactly five consecutive OPEN classifications, which satisfies the
claim hypothesis of at least N = 5 consecutive OPEN frames, never sets the mode
to CHAOS: the comparison openFrames > CONFIDENCE_THRESHOLD is strict, so the
claimed transition does not happen even once during the sequence. -/
theorem c1_counterexample :
    modeEvents (runFrames s0 (List.replicate 5 openIn)).2 = [] ∧
    (runFrames s0 (List.replicate 5 openIn)).1.lastMode = TreeMode.FORMED := by
  decide

/-- C1, amended: starting from FORMED with all counters at zero, every sequence
of at least N + 1 = 6 consecutive OPEN classifications sets the mode to CHAOS
exactly once, namely on the sixth consecutive OPEN frame and not before, and
the mode is CHAOS afterwards. -/
theorem c1_amended (k : Nat) (hk : 6 ≤ k) :
    (runFrames s0 (List.replicate k openIn)).2.map GCOut.modeCalls =
      List.replicate 5 [] ++ [[TreeMode.CHAOS]] ++ List.replicate (k - 6) [] ∧
    (runFrames s0 (List.replicate k openIn)).1.lastMode = TreeMode.CHAOS := by
  obtain ⟨m, rfl⟩ := Nat.exists_eq_add_of_le hk
  have hsplit : List.replicate (6 + m) openIn =
      List.replicate 6 openIn ++ List.replicate m openIn := List.replicate_add 6 m openIn
  have habs := chaos_absorbing m (runFrames s0 (List.replicate 6 openIn)).1
    (by rw [runFrames_six])
  rw [hsplit, runFrames_append]
  refine ⟨?_, habs.1⟩
  rw [List.map_append, runFrames_six_calls, habs.2]
  simp [Nat.add_sub_cancel_left, List.append_assoc]

/-- C1 witness: a concrete seven frame OPEN streak confirms CHAOS exactly on
frame six. -/
theorem c1_amended_witness :
    (runFrames s0 (List.replicate 7 openIn)).2.map GCOut.modeCalls =
      List.replicate 5 [] ++ [[TreeMode.CHAOS]] ++ List.replicate (7 - 6) [] ∧
    (runFrames s0 (List.replicate 7 openIn)).1.lastMode = TreeMode.CHAOS :=
  c1_amended 7 (by norm_num)

/-- C2, counterexample: with the tree in CHAOS and polaroid 2 zoomed, a gesture
confirmed mode change to FORMED goes through the setMode wiring of App.tsx line
172 and leaves the zoomed polaroid override in place, so a mode change does not
always clear the override within the same tick. -/
theorem c2_counterexample :
    (gestureModeChange ⟨TreeMode.CHAOS, some 2⟩ TreeMode.FORMED).mode ≠
      (⟨TreeMode.CHAOS, some 2⟩ : AppState).mode ∧
    (gestureModeChange ⟨TreeMode.CHAOS, some 2⟩ TreeMode.FORMED).zoomedPolaroid =
      some 2 := by
  decide

/-- C2, amended: a mode change through the double click handler clears the
zoomed polaroid override in the same tick, while a gesture confirmed mode
change replaces the mode and leaves the override untouched. -/
theorem c2_amended :
    (∀ s : AppState, (handleTreeClick s).zoomedPolaroid = none ∧
      (handleTreeClick s).mode = toggleModeVal s.mode) ∧
    (∀ (s : AppState) (m : TreeMode), (gestureModeChange s m).mode = m ∧
      (gestureModeChange s m).zoomedPolaroid = s.zoomedPolaroid) :=
  ⟨fun _ => ⟨rfl, rfl⟩, fun _ _ => ⟨rfl, rfl⟩⟩

/-- C3, counterexample: one OPEN frame followed by seven pointing frames, with
no return to OPEN, invokes onIndexFingerDetected with true twice, on the sixth
and seventh pointing frames, because the confirmation path of
GestureController.tsx line 209 fires on every frame past the threshold without
arming the latch. -/
theorem c3_counterexample :
    ¬ ((indexEvents (runFrames s0 (openIn :: List.replicate 7 pointIn)).2).count
        true ≤ 1) := by
  decide

/-- C6, counterexample: three OPEN frames build an open streak of three, but a
single detected AMBIGUOUS frame with three extended fingers is treated as
pointing and hard resets the open streak to zero rather than decaying it. -/
theorem c6_counterexample :
    (runFrames s0 [openIn, openIn, openIn]).1.openFrames = 3 ∧
    (runFrames s0 [openIn, openIn, openIn, ambIn]).1.openFrames = 0 := by
  decide

/-- C6, amended: a single isolated NONE frame inside an OPEN streak only decays
the open streak counter by one, so with the dropout after j OPEN frames, for
any j between 1 and 5, the transition to CHAOS still happens, delayed to the
eighth frame overall, N + 3 frames after the streak start. A detected
ambiguous frame instead hard resets the streak, see the counterexample. -/
theorem c6_amended (j : Nat) (h1 : 1 ≤ j) (h2 : j ≤ 5) :
    (runFrames s0 (List.replicate j openIn ++ [(none : Option HandIn)])).1.openFrames
      = j - 1 ∧
    (runFrames s0 (List.replicate j openIn ++ [(none : Option HandIn)] ++
      List.replicate (7 - j) openIn)).2.map GCOut.modeCalls =
      List.replicate 7 [] ++ [[TreeMode.CHAOS]] := by
  interval_cases j <;> exact ⟨by decide, by decide⟩

/-- C6 witness: the dropout after three OPEN frames leaves a streak of two and
CHAOS is still confirmed on frame eight. -/
theorem c6_amended_witness :
    (runFrames s0 (List.replicate 3 openIn ++ [(none : Option HandIn)])).1.openFrames
      = 3 - 1 ∧
    (runFrames s0 (List.replicate 3 openIn ++ [(none : Option HandIn)] ++
      List.replicate (7 - 3) openIn)).2.map GCOut.modeCalls =
      List.replicate 7 [] ++ [[TreeMode.CHAOS]] :=
  c6_amended 3 (by norm_num) (by norm_num)

/-- C8: a frame with no detected hand reports the hand signal as not detected
at the neutral position, emits no mode change, keeps the persistent mode, and
clears the point latch; the lost hand is ordinary input, not an error. -/
theorem c8_none_frame (s : GCState) :
    (processFrame s none).2.handSignal = (1/2, 1/2, false) ∧
    (processFrame s none).2.modeCalls = [] ∧
    (processFrame s none).1.lastMode = s.lastMode ∧
    (processFrame s none).1.hasTriggeredZoom = false :=
  ⟨rfl, rfl, rfl, rfl⟩

/-- C9: with an extended finger count of at most five, the open hand branch of
the DECISION cascade, the only one that can confirm CHAOS, runs exactly when
all five fingers are extended, the fist branch, the only one that can confirm
FORMED, runs exactly when no finger is extended, and every count from one to
four is classified as pointing and excluded from both branches. The branch
taken is observed through the streak counter it increments, since every other
branch zeroes it. -/
theorem c9_branches (s : GCState) (n : Nat) (px py : Rat) (h : n ≤ 5) :
    ((detectGesture s ⟨n, px, py⟩).1.openFrames ≠ 0 ↔ n = 5) ∧
    ((detectGesture s ⟨n, px, py⟩).1.closedFrames ≠ 0 ↔ n = 0) ∧
    (1 ≤ n → n ≤ 4 → isPointing n = true ∧
      gestureCategory n = GestureCategory.POINTING) ∧
    (gestureCategory n = GestureCategory.OPEN ↔ n = 5) ∧
    (gestureCategory n = GestureCategory.FIST ↔ n = 0) := by
  interval_cases n <;>
    simp [detectGesture, gestureCategory, isPointing, isOpenHand, CONFIDENCE_THRESHOLD] <;>
    split_ifs <;> simp

/-- C9 witness: the fully open hand with five extended fingers. -/
theorem c9_witness :
    ((detectGesture s0 ⟨5, 0, 0⟩).1.openFrames ≠ 0 ↔ 5 = 5) ∧
    ((detectGesture s0 ⟨5, 0, 0⟩).1.closedFrames ≠ 0 ↔ 5 = 0) ∧
    (1 ≤ 5 → 5 ≤ 4 → isPointing 5 = true ∧
      gestureCategory 5 = GestureCategory.POINTING) ∧
    (gestureCategory 5 = GestureCategory.OPEN ↔ 5 = 5) ∧
    (gestureCategory 5 = GestureCategory.FIST ↔ 5 = 0) :=
  c9_branches s0 5 0 0 (by norm_num)

/-- C3, amended: on a pointing frame, an armed latch suppresses every point
event and stays armed, so once the fast path has fired, sustained POINTING
cannot fire again until something clears the latch; with the latch unarmed,
the fast path fires and arms the latch exactly when the previous stable
category was OPEN and the pointing streak reaches two, and then the frame
emits exactly one event; however, with the latch unarmed and the previous
category not OPEN, the confirmation path emits the event on every frame whose
pointing streak exceeds the threshold, so the original at most once guarantee
does not hold on that path. -/
theorem c3_amended (s : GCState) (n : Nat) (px py : Rat) (h1 : 1 ≤ n) (h2 : n ≤ 4) :
    (s.hasTriggeredZoom = true →
      (detectGesture s ⟨n, px, py⟩).2.indexCalls = [] ∧
      (detectGesture s ⟨n, px, py⟩).1.hasTriggeredZoom = true) ∧
    (s.hasTriggeredZoom = false →
      ((detectGesture s ⟨n, px, py⟩).1.hasTriggeredZoom = true ↔
        (s.lastGestureState = GState.opened ∧ 2 ≤ s.pointingFrames + 1)) ∧
      ((detectGesture s ⟨n, px, py⟩).1.hasTriggeredZoom = true →
        (detectGesture s ⟨n, px, py⟩).2.indexCalls = [true]) ∧
      (s.lastGestureState ≠ GState.opened →
        s.pointingFrames + 1 > CONFIDENCE_THRESHOLD →
        (detectGesture s ⟨n, px, py⟩).2.indexCalls = [true])) := by
  have hp : isPointing n = true := by
    simp only [isPointing, Bool.and_eq_true, decide_eq_true_eq]
    omega
  constructor
  · intro h
    simp [detectGesture, hp, h]
  · intro h
    refine ⟨?_, ?_, ?_⟩
    · by_cases hl : s.lastGestureState = GState.opened <;>
        by_cases hf : 2 ≤ s.pointingFrames + 1 <;>
        simp [detectGesture, hp, h, hl, hf]
    · by_cases hl : s.lastGestureState = GState.opened <;>
        by_cases hf : 2 ≤ s.pointingFrames + 1 <;>
        simp [detectGesture, hp, h, hl, hf, CONFIDENCE_THRESHOLD]
    · intro hl hgt
      simp only [CONFIDENCE_THRESHOLD] at hgt
      simp [detectGesture, hp, h, hl, CONFIDENCE_THRESHOLD, hgt]

/-- C3 witness: the second frame of an OPEN to POINTING transition with the
latch unarmed fires the fast path exactly once. -/
theorem c3_amended_witness :
    (c3s.hasTriggeredZoom = true →
      (detectGesture c3s ⟨1, 0, 0⟩).2.indexCalls = [] ∧
      (detectGesture c3s ⟨1, 0, 0⟩).1.hasTriggeredZoom = true) ∧
    (c3s.hasTriggeredZoom = false →
      ((detectGesture c3s ⟨1, 0, 0⟩).1.hasTriggeredZoom = true ↔
        (c3s.lastGestureState = GState.opened ∧ 2 ≤ c3s.pointingFrames + 1)) ∧
      ((detectGesture c3s ⟨1, 0, 0⟩).1.hasTriggeredZoom = true →
        (detectGesture c3s ⟨1, 0, 0⟩).2.indexCalls = [true]) ∧
      (c3s.lastGestureState ≠ GState.opened →
        c3s.pointingFrames + 1 > CONFIDENCE_THRESHOLD →
        (detectGesture c3s ⟨1, 0, 0⟩).2.indexCalls = [true])) :=
  c3_amended c3s 1 0 0 (by norm_num) (by norm_num)

/-- The squared distance is nonnegative. -/
lemma distSq_nonneg (a b : Vec3) : 0 ≤ distSq a b := by
  unfold distSq
  positivity

/-- One lerp step scales the squared distance to the target by the square of
one minus the step. -/
lemma distSq_lerp3 (p t : Vec3) (a : Rat) :
    distSq (lerp3 p t a) t = (1 - a) ^ 2 * distSq p t := by
  simp only [distSq, lerp3]
  ring

/-- A lerp from p toward t is the point of the segment from t toward p at the
complementary parameter. -/
lemma lerp3_swap (p t : Vec3) (a : Rat) : lerp3 p t a = lerp3 t p (1 - a) := by
  simp only [lerp3, Vec3.mk.injEq]
  refine ⟨by ring, by ring, by ring⟩

/-- A lerp step with parameter between zero and one never increases the
distance to the target and lands on the segment between the start and the
target, hence never overshoots. -/
lemma lerp3_contract (p t : Vec3) (a : Rat) (h0 : 0 ≤ a) (h1 : a ≤ 1) :
    Real.sqrt ((distSq (lerp3 p t a) t : Rat) : ℝ) ≤
      Real.sqrt ((distSq p t : Rat) : ℝ) ∧
    ∃ c : Rat, 0 ≤ c ∧ c ≤ 1 ∧ lerp3 p t a = lerp3 t p c := by
  constructor
  · apply Real.sqrt_le_sqrt
    have hsq : (1 - a) ^ 2 ≤ 1 := by nlinarith
    have hd : distSq (lerp3 p t a) t ≤ distSq p t := by
      rw [distSq_lerp3]
      nlinarith [distSq_nonneg p t]
    exact_mod_cast hd
  · exact ⟨1 - a, by linarith, by linarith, lerp3_swap p t a⟩

/-- C4, amended: the ornament update does clamp its step to
min(1, delta times speed), so for every nonnegative delta and speed the
distance to the destination never increases and the new position stays on the
segment toward it; the polaroid update uses the unclamped step
delta times speed and gives the same guarantees only when that product is at
most one. -/
theorem c4_amended (p t : Vec3) (delta speed : Rat) (hd : 0 ≤ delta) (hs : 0 ≤ speed) :
    (Real.sqrt ((distSq (ornamentUpdate p t delta speed) t : Rat) : ℝ) ≤
      Real.sqrt ((distSq p t : Rat) : ℝ) ∧
     ∃ c : Rat, 0 ≤ c ∧ c ≤ 1 ∧ ornamentUpdate p t delta speed = lerp3 t p c) ∧
    (delta * speed ≤ 1 →
      Real.sqrt ((distSq (polaroidUpdate p t delta speed) t : Rat) : ℝ) ≤
        Real.sqrt ((distSq p t : Rat) : ℝ) ∧
      ∃ c : Rat, 0 ≤ c ∧ c ≤ 1 ∧ polaroidUpdate p t delta speed = lerp3 t p c) := by
  constructor
  · exact lerp3_contract p t (min 1 (delta * speed))
      (le_min (by norm_num) (mul_nonneg hd hs)) (min_le_left 1 (delta * speed))
  · intro hle
    exact lerp3_contract p t (delta * speed) (mul_nonneg hd hs) hle

/-- C4, counterexample: the polaroid update does not clamp its step, so with
delta = 3 and speed = 1 a position one unit from the target overshoots to two
units on the far side and the distance to the fixed target increases. -/
theorem c4_counterexample :
    Real.sqrt ((distSq (polaroidUpdate ⟨0, 0, 0⟩ ⟨1, 0, 0⟩ 3 1) ⟨1, 0, 0⟩ : Rat) : ℝ) >
      Real.sqrt ((distSq (⟨0, 0, 0⟩ : Vec3) ⟨1, 0, 0⟩ : Rat) : ℝ) := by
  have h1 : distSq (polaroidUpdate ⟨0, 0, 0⟩ ⟨1, 0, 0⟩ 3 1) ⟨1, 0, 0⟩ = 4 := by
    norm_num [polaroidUpdate, lerp3, distSq]
  have h2 : distSq (⟨0, 0, 0⟩ : Vec3) ⟨1, 0, 0⟩ = 1 := by
    norm_num [distSq]
  rw [h1, h2]
  have h3 : Real.sqrt 1 < Real.sqrt 4 :=
    Real.sqrt_lt_sqrt (by norm_num) (by norm_num)
  push_cast
  exact h3

/-- C4 witness: a concrete half step toward the target. -/
theorem c4_amended_witness :
    (Real.sqrt ((distSq (ornamentUpdate ⟨0, 0, 0⟩ ⟨1, 0, 0⟩ 1 (1/2)) ⟨1, 0, 0⟩ : Rat) : ℝ) ≤
      Real.sqrt ((distSq (⟨0, 0, 0⟩ : Vec3) ⟨1, 0, 0⟩ : Rat) : ℝ) ∧
     ∃ c : Rat, 0 ≤ c ∧ c ≤ 1 ∧
       ornamentUpdate ⟨0, 0, 0⟩ ⟨1, 0, 0⟩ 1 (1/2) = lerp3 ⟨1, 0, 0⟩ ⟨0, 0, 0⟩ c) ∧
    ((1 : Rat) * (1/2) ≤ 1 →
      Real.sqrt ((distSq (polaroidUpdate ⟨0, 0, 0⟩ ⟨1, 0, 0⟩ 1 (1/2)) ⟨1, 0, 0⟩ : Rat) : ℝ) ≤
        Real.sqrt ((distSq (⟨0, 0, 0⟩ : Vec3) ⟨1, 0, 0⟩ : Rat) : ℝ) ∧
      ∃ c : Rat, 0 ≤ c ∧ c ≤ 1 ∧
        polaroidUpdate ⟨0, 0, 0⟩ ⟨1, 0, 0⟩ 1 (1/2) = lerp3 ⟨1, 0, 0⟩ ⟨0, 0, 0⟩ c) :=
  c4_amended ⟨0, 0, 0⟩ ⟨1, 0, 0⟩ 1 (1/2) (by norm_num) (by norm_num)

/-- C7: for any current azimuth within plus or minus pi and any hand derived
target azimuth, the wrap around adjustment returns a difference congruent to
the raw difference modulo two pi whose magnitude is at most pi, so the
interpolation rotates along the shorter angular path. -/
theorem c7_shorter_path (cur hx : ℝ) (hc1 : -Real.pi ≤ cur) (hc2 : cur ≤ Real.pi)
    (hx1 : 0 ≤ hx) (hx2 : hx ≤ 1) :
    |adjustAzimuthDiff (targetAzimuth hx - cur)| ≤ Real.pi ∧
    ∃ k : ℤ, adjustAzimuthDiff (targetAzimuth hx - cur) =
      (targetAzimuth hx - cur) + 2 * Real.pi * k := by
  have hpi := Real.pi_pos
  have hub : targetAzimuth hx - cur ≤ 5/2 * Real.pi := by
    unfold targetAzimuth
    nlinarith [mul_nonneg (by linarith : (0:ℝ) ≤ 1 - hx) hpi.le]
  have hlb : -(5/2 * Real.pi) ≤ targetAzimuth hx - cur := by
    unfold targetAzimuth
    nlinarith [mul_nonneg hx1 hpi.le]
  unfold adjustAzimuthDiff
  split_ifs with h1 h2
  · refine ⟨?_, ⟨-1, by push_cast; ring⟩⟩
    rw [abs_le]
    constructor <;> linarith
  · refine ⟨?_, ⟨1, by push_cast; ring⟩⟩
    rw [abs_le]
    constructor <;> linarith
  · refine ⟨?_, ⟨0, by push_cast; ring⟩⟩
    rw [abs_le]
    constructor <;> linarith

/-- C7 witness: the centered hand with the camera at azimuth zero. -/
theorem c7_witness :
    |adjustAzimuthDiff (targetAzimuth (1/2) - 0)| ≤ Real.pi ∧
    ∃ k : ℤ, adjustAzimuthDiff (targetAzimuth (1/2) - 0) =
      (targetAzimuth (1/2) - 0) + 2 * Real.pi * k :=
  c7_shorter_path 0 (1/2) (by linarith [Real.pi_pos]) (by linarith [Real.pi_pos])
    (by norm_num) (by norm_num)

/-- C10, counterexample: a rising edge arriving exactly 300 milliseconds after
the previously accepted edge is rejected, because the debounce comparison is
strict, so the index does not advance even though the edge occurred at least
300 milliseconds after the previous one. -/
theorem c10_counterexample :
    (polaroidGestureEffect ⟨0, false, 0⟩
      ⟨true, TreeMode.CHAOS, 3, none, 300⟩).1.currentZoomIndex ≠ (0 + 1) % 3 ∧
    (polaroidGestureEffect ⟨0, false, 0⟩
      ⟨true, TreeMode.CHAOS, 3, none, 300⟩).1.currentZoomIndex = 0 ∧
    (polaroidGestureEffect ⟨0, false, 0⟩
      ⟨true, TreeMode.CHAOS, 3, none, 300⟩).2 = [] := by
  decide

/-- C10, amended: in CHAOS mode with a positive photo count, a rising edge of
the index finger signal arriving strictly more than 300 milliseconds after the
previously accepted edge advances the zoom index to the successor modulo the
photo count, emits exactly that index, records the new timestamp, and wraps
from the last photo back to photo zero. -/
theorem c10_amended (s : PolState) (i : PolIn) (h1 : i.indexFingerDetected = true)
    (h2 : 0 < i.photoCount) (h3 : i.mode = TreeMode.CHAOS)
    (h4 : s.previousIndexFinger = false)
    (h5 : i.currentTime - s.lastGestureTime > gestureDebounceTime) :
    (polaroidGestureEffect s i).1.currentZoomIndex =
      (s.currentZoomIndex + 1) % i.photoCount ∧
    (polaroidGestureEffect s i).2 = [some ((s.currentZoomIndex + 1) % i.photoCount)] ∧
    (polaroidGestureEffect s i).1.lastGestureTime = i.currentTime ∧
    (s.currentZoomIndex + 1 = i.photoCount →
      (polaroidGestureEffect s i).1.currentZoomIndex = 0) := by
  refine ⟨?_, ?_, ?_, ?_⟩ <;>
    simp [polaroidGestureEffect, h1, h2, h3, h4, h5]
  intro hw
  rw [hw, Nat.mod_self]

/-- C10 witness: from photo index two of three, an accepted edge wraps to
photo zero. -/
theorem c10_amended_witness :
    (polaroidGestureEffect ⟨2, false, 0⟩
      ⟨true, TreeMode.CHAOS, 3, none, 301⟩).1.currentZoomIndex = (2 + 1) % 3 ∧
    (polaroidGestureEffect ⟨2, false, 0⟩
      ⟨true, TreeMode.CHAOS, 3, none, 301⟩).2 = [some ((2 + 1) % 3)] ∧
    (polaroidGestureEffect ⟨2, false, 0⟩
      ⟨true, TreeMode.CHAOS, 3, none, 301⟩).1.lastGestureTime = 301 ∧
    (2 + 1 = 3 →
      (polaroidGestureEffect ⟨2, false, 0⟩
        ⟨true, TreeMode.CHAOS, 3, none, 301⟩).1.currentZoomIndex = 0) :=
  c10_amended ⟨2, false, 0⟩ ⟨true, TreeMode.CHAOS, 3, none, 301⟩ rfl (by norm_num)
    rfl rfl (by decide)

/-- Distance from a point on the nonnegative x axis to the origin. -/
lemma landmarkDist_line0 (u : ℝ) (hu : 0 ≤ u) :
    landmarkDist ⟨u, 0⟩ ⟨0, 0⟩ = u := by
  unfold landmarkDist
  norm_num
  exact Real.sqrt_sq hu

/-- Every finger of the open scenario hand counts as extended. -/
lemma rhOpen_ext :
    longFingerExtended rhOpen 8 5 ∧ longFingerExtended rhOpen 12 9 ∧
    longFingerExtended rhOpen 16 13 ∧ longFingerExtended rhOpen 20 17 ∧
    thumbExtended rhOpen := by
  refine ⟨?_, ?_, ?_, ?_, ?_⟩ <;>
    simp only [longFingerExtended, thumbExtended, rhOpen, ratioHand] <;>
    norm_num <;>
    rw [landmarkDist_line0 1 (by norm_num)]
  · rw [landmarkDist_line0 2 (by norm_num)]; norm_num
  · rw [landmarkDist_line0 2 (by norm_num)]; norm_num
  · rw [landmarkDist_line0 2 (by norm_num)]; norm_num
  · rw [landmarkDist_line0 2 (by norm_num)]; norm_num
  · rw [landmarkDist_line0 (13/10) (by norm_num)]; norm_num

/-- No finger of the fist scenario hand counts as extended. -/
lemma rhFist_not :
    ¬ longFingerExtended rhFist 8 5 ∧ ¬ longFingerExtended rhFist 12 9 ∧
    ¬ longFingerExtended rhFist 16 13 ∧ ¬ longFingerExtended rhFist 20 17 ∧
    ¬ thumbExtended rhFist := by
  refine ⟨?_, ?_, ?_, ?_, ?_⟩ <;>
    simp only [longFingerExtended, thumbExtended, rhFist, ratioHand] <;>
    norm_num <;>
    rw [landmarkDist_line0 1 (by norm_num)] <;>
    norm_num

/-- Only the index finger of the pointing scenario hand counts as extended. -/
lemma rhPoint_ext :
    longFingerExtended rhPoint 8 5 ∧ ¬ longFingerExtended rhPoint 12 9 ∧
    ¬ longFingerExtended rhPoint 16 13 ∧ ¬ longFingerExtended rhPoint 20 17 ∧
    ¬ thumbExtended rhPoint := by
  refine ⟨?_, ?_, ?_, ?_, ?_⟩ <;>
    simp only [longFingerExtended, thumbExtended, rhPoint, ratioHand] <;>
    norm_num <;>
    rw [landmarkDist_line0 1 (by norm_num)]
  · rw [landmarkDist_line0 2 (by norm_num)]; norm_num
  · norm_num
  · norm_num
  · norm_num
  · norm_num

/-- With all five extension tests true the classifier counts five fingers. -/
lemma extendedFingersCount_all (lm : Nat → Landmark)
    (h1 : longFingerExtended lm 8 5) (h2 : longFingerExtended lm 12 9)
    (h3 : longFingerExtended lm 16 13) (h4 : longFingerExtended lm 20 17)
    (h5 : thumbExtended lm) : extendedFingersCount lm = 5 := by
  unfold extendedFingersCount
  rw [if_pos h1, if_pos h2, if_pos h3, if_pos h4, if_pos h5]

/-- With all five extension tests false the classifier counts zero fingers. -/
lemma extendedFingersCount_zero (lm : Nat → Landmark)
    (h1 : ¬ longFingerExtended lm 8 5) (h2 : ¬ longFingerExtended lm 12 9)
    (h3 : ¬ longFingerExtended lm 16 13) (h4 : ¬ longFingerExtended lm 20 17)
    (h5 : ¬ thumbExtended lm) : extendedFingersCount lm = 0 := by
  unfold extendedFingersCount
  rw [if_neg h1, if_neg h2, if_neg h3, if_neg h4, if_neg h5]

/-- With only the index finger test true the classifier counts one finger. -/
lemma extendedFingersCount_index (lm : Nat → Landmark)
    (h1 : longFingerExtended lm 8 5) (h2 : ¬ longFingerExtended lm 12 9)
    (h3 : ¬ longFingerExtended lm 16 13) (h4 : ¬ longFingerExtended lm 20 17)
    (h5 : ¬ thumbExtended lm) : extendedFingersCount lm = 1 := by
  unfold extendedFingersCount
  rw [if_pos h1, if_neg h2, if_neg h3, if_neg h4, if_neg h5]

/-- C5: a finger counts as extended exactly by the ratio tests of the source,
so a hand whose five tests all pass counts five fingers and one where they all
fail counts zero; consequently the synthetic hand with long finger ratios two
and thumb ratio 1.3 classifies as OPEN, the all ratio one hand as FIST, and
the index finger only hand as POINTING. -/
theorem c5_classifier :
    (∀ lm : Nat → Landmark,
      longFingerExtended lm 8 5 → longFingerExtended lm 12 9 →
      longFingerExtended lm 16 13 → longFingerExtended lm 20 17 →
      thumbExtended lm → extendedFingersCount lm = 5) ∧
    (∀ lm : Nat → Landmark,
      ¬ longFingerExtended lm 8 5 → ¬ longFingerExtended lm 12 9 →
      ¬ longFingerExtended lm 16 13 → ¬ longFingerExtended lm 20 17 →
      ¬ thumbExtended lm → extendedFingersCount lm = 0) ∧
    gestureCategory (extendedFingersCount rhOpen) = GestureCategory.OPEN ∧
    gestureCategory (extendedFingersCount rhFist) = GestureCategory.FIST ∧
    gestureCategory (extendedFingersCount rhPoint) = GestureCategory.POINTING := by
  refine ⟨extendedFingersCount_all, extendedFingersCount_zero, ?_, ?_, ?_⟩
  · rw [extendedFingersCount_all rhOpen rhOpen_ext.1 rhOpen_ext.2.1
      rhOpen_ext.2.2.1 rhOpen_ext.2.2.2.1 rhOpen_ext.2.2.2.2]
    decide
  · rw [extendedFingersCount_zero rhFist rhFist_not.1 rhFist_not.2.1
      rhFist_not.2.2.1 rhFist_not.2.2.2.1 rhFist_not.2.2.2.2]
    decide
  · rw [extendedFingersCount_index rhPoint rhPoint_ext.1 rhPoint_ext.2.1
      rhPoint_ext.2.2.1 rhPoint_ext.2.2.2.1 rhPoint_ext.2.2.2.2]
    decide

/-- C5 witness: the two scenario hands evaluated through the counting
conjuncts. -/
theorem c5_witness :
    extendedFingersCount rhOpen = 5 ∧ extendedFingersCount rhFist = 0 :=
  ⟨c5_classifier.1 rhOpen rhOpen_ext.1 rhOpen_ext.2.1 rhOpen_ext.2.2.1
      rhOpen_ext.2.2.2.1 rhOpen_ext.2.2.2.2,
   c5_classifier.2.1 rhFist rhFist_not.1 rhFist_not.2.1 rhFist_not.2.2.1
      rhFist_not.2.2.2.1 rhFist_not.2.2.2.2⟩
